import Mathlib

/-!
Shallow embedding of the SEObot background task queue and worker pipeline
(`database.py`, `worker.py`, `services/workflow.py`), together with proofs
of the specified properties of the claim/dispatch/pipeline machinery.

Conventions of the embedding:
* MySQL rows of `background_tasks` become the `Row` structure; a store is a
  `List Row`.  Timestamps are `Nat`s supplied by the caller (the code always
  passes a fresh `datetime.now()`, so a matched row is always a changed row
  and `cursor.rowcount > 0` coincides with "a row with this task_id exists").
* Python `dict` payloads become a structure of `Option` fields: `none` models
  an absent key, `some s` a present key whose value is `s` (so `some ""` is a
  present-but-falsy value, exactly as in Python).
* External collaborators (Anthropic, Imagen, WordPress, the callback POST)
  are oracles: each call site reads its outcome from an environment record.
  `Except.error e` models the call raising an exception with text `e`,
  `Except.ok v` a normal return.
* Worker executions are summarised by a `Trace`: which external calls were
  attempted, whether the task was marked `processing`, and the final
  `update_task_status` write (status, attempts argument, error message).
-/

/-- Task lifecycle states stored in `background_tasks.status`. -/
inductive Status where
  | pending
  | processing
  | completed
  | error
  | skip
deriving DecidableEq, Repr

/-- The structured payload of a `generate_content` task.  Each field is
`none` when the JSON key is absent and `some v` when present with value `v`
(`some ""` models a present key holding an empty/falsy value). -/
structure Payload where
  brief_id : Option String
  prompt : Option String
  target_word_count : Option Nat
  keyword : Option String
  callback_url : Option String
deriving DecidableEq, Repr

/-- Python `not payload`: the dict is empty, i.e. every key is absent. -/
def Payload.isEmptyDict (p : Payload) : Bool :=
  p.brief_id.isNone && p.prompt.isNone && p.target_word_count.isNone &&
    p.keyword.isNone && p.callback_url.isNone

/-- `worker.py` line 96: `[key for key in required_payload_keys if key not in
payload]`, in the source order of `required_payload_keys`. -/
def missingKeys (p : Payload) : List String :=
  (if p.brief_id.isNone then ["brief_id"] else []) ++
  (if p.prompt.isNone then ["prompt"] else []) ++
  (if p.target_word_count.isNone then ["target_word_count"] else []) ++
  (if p.keyword.isNone then ["keyword"] else []) ++
  (if p.callback_url.isNone then ["callback_url"] else [])

/-- One row of the `background_tasks` table. -/
structure Row where
  task_id : Nat
  task_type : String
  payload : Payload
  status : Status
  attempts : Nat
  last_error : Option String
  created_at : Nat
  updated_at : Nat
deriving DecidableEq, Repr

/-- `database.update_task_status`: `UPDATE background_tasks SET status=%s,
updated_at=%s, attempts=IFNULL(%s,attempts), last_error=%s WHERE task_id=%s`.
The `WHERE` clause matches on `task_id` alone — it does not look at the
current status.  Returns the updated store and `cursor.rowcount > 0`;
mysql-connector by default reports *changed* rows, so the boolean is "some
row with this `task_id` was actually modified" (every caller passes a fresh
`datetime.now()`, so a matched row is changed whenever `now` differs from
its stored `updated_at`). -/
def update_task_status (db : List Row) (task_id : Nat) (status : Status)
    (attempts : Option Nat) (error_message : Option String) (now : Nat) :
    List Row × Bool :=
  let upd := fun (r : Row) =>
    { r with
      status := status
      updated_at := now
      attempts := attempts.getD r.attempts
      last_error := error_message }
  (db.map (fun r => if r.task_id = task_id then upd r else r),
   db.any (fun r => r.task_id == task_id && upd r != r))

/-- `database.mark_task_processing`: delegates to `update_task_status` with
status `'processing'` and `attempts = attempts + 1`. -/
def mark_task_processing (db : List Row) (task_id : Nat) (attempts : Nat)
    (now : Nat) : List Row × Bool :=
  update_task_status db task_id .processing (some (attempts + 1)) none now

/-- The `WHERE` predicate of `get_pending_tasks`:
`(status = 'pending' OR (status = 'error' AND attempts < max_retries))
AND status != 'skip'`. -/
def claimEligible (max_retries : Nat) (r : Row) : Bool :=
  (r.status == .pending || (r.status == .error && r.attempts < max_retries)) &&
    r.status != .skip

/-- Insertion of a row into a list sorted by `created_at` ascending
(modelling `ORDER BY created_at ASC`; ties are broken by keeping the
earlier-inserted row first, which is one of MySQL's permitted orders). -/
def insertByCreated (r : Row) : List Row → List Row
  | [] => [r]
  | x :: xs =>
    if r.created_at < x.created_at then r :: x :: xs
    else x :: insertByCreated r xs

/-- Sort a store by `created_at` ascending. -/
def sortByCreated : List Row → List Row
  | [] => []
  | x :: xs => insertByCreated x (sortByCreated xs)

/-- `database.get_pending_tasks`: rows satisfying the `WHERE` predicate,
ordered by `created_at ASC`, truncated by `LIMIT`. -/
def get_pending_tasks (db : List Row) (limit : Nat) (max_retries : Nat) :
    List Row :=
  (sortByCreated (db.filter (claimEligible max_retries))).take limit

/-! ### Worker-level embedding (`worker.py`, `process_single_task`) -/

/-- The task dict handed to the worker by `get_pending_tasks` (the fields the
worker reads: `task_id, task_type, payload, attempts`). -/
structure TaskRec where
  task_id : Nat
  task_type : String
  payload : Payload
  attempts : Nat
deriving DecidableEq, Repr

/-- Project a store row onto the columns selected by `get_pending_tasks`. -/
def Row.toTask (r : Row) : TaskRec :=
  { task_id := r.task_id
    task_type := r.task_type
    payload := r.payload
    attempts := r.attempts }

/-- The result dict of `workflow_service.post_content_to_wordpress` as read
by the worker: `post_result['blog_post']` and `post_result['category_update']`
field accesses via `.get` (each `Option` models a possibly-absent key). -/
structure PostResult where
  blogStatus : Option String
  blogId : Option Nat
  blogUrl : Option String
  blogError : Option String
  catStatus : Option String
  catError : Option String
deriving DecidableEq, Repr

/-- Python rendering of a possibly-`None` string inside an f-string. -/
def pyStr (o : Option String) : String := o.getD "None"

/-- Outcome of the service-initialization block (`worker.py` lines 112-176):
normal completion, a `ValueError` (stored verbatim via `str(ve)`), or any
other exception (stored wrapped in the init-failure message). -/
inductive InitOutcome where
  | ok
  | valueError (e : String)
  | otherExc (e : String)
deriving DecidableEq, Repr

/-- Outcome of the callback `requests.post`: 2xx success, a
`requests.exceptions.RequestException`, the `ValueError` raised when the WP
credentials are absent (raised before the POST), or any other exception. -/
inductive CallbackOutcome where
  | ok
  | requestExc (e : String)
  | credsMissing
  | otherExc (e : String)
deriving DecidableEq, Repr

/-- The external calls a single task execution can attempt. -/
inductive ExtCall where
  | genText
  | genImage
  | publishPost
  | callbackPost
deriving DecidableEq, Repr

/-- Oracle for one execution of `process_single_task`: the outcome each
external collaborator would produce if consulted.  `Except.error e` models
the call raising an exception whose `str` is `e`. -/
structure WorkerEnv where
  markOk : Bool
  init : InitOutcome
  gen : Except String (Option String × Option String)
  image : Except String (Option Nat)
  publish : Except String (Option PostResult)
  callback : CallbackOutcome
  cfgCallbackUrl : String
deriving Repr

/-- Observable summary of one `process_single_task` execution: whether
`mark_task_processing` was invoked, which external calls were attempted (in
order), and the final `update_task_status` write as
`(status, attempts argument, error_message)`. -/
structure Trace where
  markCalled : Bool
  calls : List ExtCall
  finalWrite : Option (Status × Option Nat × Option String)
deriving DecidableEq, Repr

/-- State of `callback_payload['status']`, `callback_payload['error_message']`
and `final_task_status` at the end of the `try` block, plus the calls made. -/
structure TryOut where
  cbStatus : String
  cbErr : Option String
  finalStatus : Status
  calls : List ExtCall
deriving DecidableEq, Repr

/-- `except Exception as processing_err` (worker.py lines 270-276): the
catch-all turns any exception into `callback_payload['status'] = 'error'`,
the generic message, and `final_task_status = 'error'`. -/
def catchAllOut (task_id : Nat) (msg : String) (calls : List ExtCall) : TryOut :=
  { cbStatus := "error"
    cbErr := some ("Unexpected error processing task " ++ toString task_id ++ ": " ++ msg)
    finalStatus := .error
    calls := calls }

/-- `str` of the `UnboundLocalError` raised when line 233's
`if post_result ...` reads the local `post_result` that was never assigned
(which happens whenever `generated_content` is falsy, since `post_result` is
only bound inside the `if generated_content:` block).  The exact wording
varies across CPython versions; only its distinctness from the pipeline's
own messages matters below. -/
def postResultUnboundMsg : String :=
  "cannot access local variable 'post_result' where it is not associated with a value"

/-- Worker.py lines 233-262: the branch on `post_result` after the
`if generated_content:` block, producing
`(callback status, error_message, final_task_status)`.  Only reachable when
`generated_content` was truthy (otherwise line 233 raises). -/
def branchOnPostResult (gen_error : Option String) (pr : Option PostResult) :
    String × Option String × Status :=
  match pr with
  | some bp =>
    if bp.blogStatus == some "success" then
      let errMsg : Option String :=
        if bp.catStatus == some "error" then
          some ("Blog post created, but category update failed: " ++ pyStr bp.catError)
        else none
      ("success", errMsg, .completed)
    else if bp.blogStatus == some "error" then
      ("error",
       some ("Content generated, but WP post creation failed: " ++
         bp.blogError.getD "Unknown WP error"),
       .error)
    else
      ("error", some ("Content generation failed: " ++ pyStr gen_error), .error)
  | none =>
      ("error", some ("Content generation failed: " ++ pyStr gen_error), .error)

/-- The `try` block of `process_single_task` (worker.py lines 193-276).
The generated artifact values (post id, image id, content) are threaded by
the source into `callback_payload` but are not observed by any claim, so the
trace records only the status/error fields and the calls attempted. -/
def runTry (task : TaskRec) (env : WorkerEnv) : TryOut :=
  if task.task_type == "generate_content" then
    match env.gen with
    | .error e => catchAllOut task.task_id e [.genText]
    | .ok (generated_content, gen_error) =>
      match generated_content with
      | some c =>
        if c ≠ "" then
          match env.image with
          | .error e => catchAllOut task.task_id e [.genText, .genImage]
          | .ok _featured =>
            match env.publish with
            | .error e => catchAllOut task.task_id e [.genText, .genImage, .publishPost]
            | .ok pr =>
              let out := branchOnPostResult gen_error pr
              { cbStatus := out.1
                cbErr := out.2.1
                finalStatus := out.2.2
                calls := [.genText, .genImage, .publishPost] }
        else
          catchAllOut task.task_id postResultUnboundMsg [.genText]
      | none => catchAllOut task.task_id postResultUnboundMsg [.genText]
  else
    { cbStatus := "error"
      cbErr := some ("Unknown task type received: " ++ task.task_type)
      finalStatus := .error
      calls := [] }

/-- `payload.get('callback_url', config.WP_CONFIG.get('callback_url'))`:
the payload value when the key is present (even if empty), otherwise the
configured fallback (`""` models an unset config value). -/
def effectiveCallbackUrl (p : Payload) (cfg : String) : String :=
  match p.callback_url with
  | some v => v
  | none => cfg

/-- The `finally` block (worker.py lines 278-346): attempt the callback when
a URL is available, possibly overriding the final status, then perform the
unconditional `update_task_status` write. -/
def runFinally (task : TaskRec) (env : WorkerEnv) (t : TryOut) : Trace :=
  let url := effectiveCallbackUrl task.payload env.cfgCallbackUrl
  if url ≠ "" then
    match env.callback with
    | .ok =>
      { markCalled := true
        calls := t.calls ++ [.callbackPost]
        finalWrite := some (t.finalStatus, none, t.cbErr) }
    | .requestExc e =>
      { markCalled := true
        calls := t.calls ++ [.callbackPost]
        finalWrite := some (.error, none,
          some ("Processing status was '" ++ t.cbStatus ++ "', but callback failed: " ++ e)) }
    | .credsMissing =>
      { markCalled := true
        calls := t.calls
        finalWrite := some (.error, none,
          some ("Callback failed for task " ++ toString task.task_id ++
            ": Missing WP API credentials for callback.")) }
    | .otherExc e =>
      { markCalled := true
        calls := t.calls ++ [.callbackPost]
        finalWrite := some (.error, none, some ("Callback error: " ++ e)) }
  else
    { markCalled := true
      calls := t.calls
      finalWrite := some (t.finalStatus, none, some "Missing callback URL in task payload") }

/-- `worker.process_single_task`: payload validation, the claim via
`mark_task_processing`, service initialization, then the `try/finally`. -/
def process_single_task (task : TaskRec) (env : WorkerEnv) : Trace :=
  if task.payload.isEmptyDict then
    { markCalled := false
      calls := []
      finalWrite := some (.error, none, some "Invalid or empty payload received.") }
  else if missingKeys task.payload ≠ [] then
    { markCalled := false
      calls := []
      finalWrite := some (.error, none,
        some ("Task " ++ toString task.task_id ++ " payload missing required keys: " ++
          String.intercalate ", " (missingKeys task.payload))) }
  else if !env.markOk then
    { markCalled := true, calls := [], finalWrite := none }
  else
    match env.init with
    | .valueError e =>
      { markCalled := true, calls := [], finalWrite := some (.error, none, some e) }
    | .otherExc e =>
      { markCalled := true
        calls := []
        finalWrite := some (.error, none,
          some ("Unexpected error initializing services for task " ++
            toString task.task_id ++ ": " ++ e)) }
    | .ok => runFinally task env (runTry task env)

/-- Apply a worker trace to the task's store row: the
`mark_task_processing` write (status `processing`, `attempts + 1`,
`last_error` cleared — the SQL sets `last_error = NULL` when no message is
passed) followed by the final `update_task_status` write. -/
def applyTrace (r : Row) (tr : Trace) (nowMark nowFinal : Nat) : Row :=
  let r1 :=
    if tr.markCalled then
      { r with
        status := .processing
        attempts := r.attempts + 1
        last_error := none
        updated_at := nowMark }
    else r
  match tr.finalWrite with
  | some (s, a, e) =>
    { r1 with
      status := s
      attempts := a.getD r1.attempts
      last_error := e
      updated_at := nowFinal }
  | none => r1

/-- One dispatcher cycle restricted to a single-row store: claim via
`get_pending_tasks` and, if the row is selected, run `process_single_task`
and apply its store writes. -/
def claimStep (env : WorkerEnv) (max_retries : Nat) (nowMark nowFinal : Nat)
    (r : Row) : Row :=
  match get_pending_tasks [r] 1 max_retries with
  | [] => r
  | t :: _ => applyTrace r (process_single_task t.toTask env) nowMark nowFinal

/-! ### Text-generation stage embedding (`services/workflow.py`,
`ContentWorkflowService.generate_content`) -/

/-- `len(s.split())`: Python `str.split()` with no separator splits on runs
of whitespace and drops empty pieces, so this counts maximal runs of
non-whitespace characters.  The `Bool` flag records "currently inside a
word". -/
def wordCountAux : List Char → Bool → Nat
  | [], _ => 0
  | c :: cs, inWord =>
    if c.isWhitespace then wordCountAux cs false
    else (if inWord then 0 else 1) + wordCountAux cs true

/-- Word count of a string, as computed by `len(content_raw.split())`. -/
def wordCount (s : String) : Nat := wordCountAux s.data false

/-- Does the character list start with the given needle? -/
def startsWithList : List Char → List Char → Bool
  | _, [] => true
  | [], _ :: _ => false
  | a :: hs, b :: ns => a == b && startsWithList hs ns

/-- Python `needle in hay` for strings: substring containment. -/
def subSearch : List Char → List Char → Bool
  | [], needle => needle.isEmpty
  | a :: hs, needle => startsWithList (a :: hs) needle || subSearch hs needle

/-- Drop leading whitespace from a character list. -/
def dropLeadingWs : List Char → List Char
  | [] => []
  | c :: cs => if c.isWhitespace then dropLeadingWs cs else c :: cs

/-- Python `str.strip()`: remove leading and trailing whitespace. -/
def pyStrip (s : String) : String :=
  String.mk ((dropLeadingWs ((dropLeadingWs s.data).reverse)).reverse)

/-- `content.lower()[:n]` as a character list (ASCII lowering, the only case
exercised by the markers searched for). -/
def lowerSlice (s : String) (n : Nat) : List Char :=
  (s.data.map Char.toLower).take n

/-- workflow.py line 943, the basic validity check:
`actual_w_count < 100 or "sorry" in content_raw.lower()[:100] or
"cannot fulfill" in content_raw.lower()[:150]`.  When it holds the stage
raises `ValueError("Generated content potentially invalid or refused.")`. -/
def basicInvalid (content : String) : Bool :=
  wordCount content < 100 ||
    subSearch (lowerSlice content 100) "sorry".data ||
    subSearch (lowerSlice content 150) "cannot fulfill".data

/-- Outcome of one `anthropic_client.messages.create` call: the text of the
first content block, or one of the exception classes the stage catches.
For `APIStatusError` the string carries the already-formatted
`({status_code}): {response}` detail. -/
inductive ApiAttempt where
  | ok (text : String)
  | connExc (e : String)
  | rateLimitExc (e : String)
  | statusExc (e : String)
  | otherExc (e : String)
deriving DecidableEq, Repr

/-- Oracle for one `generate_content` run: whether the Anthropic client and
the prompt builder are available, the outcome of the `i`-th API call, and
`_process_claude_link_suggestions` as an opaque text transformation. -/
structure GenEnv where
  clientOk : Bool
  promptOk : Bool
  api : Nat → ApiAttempt
  linkProc : String → String

/-- One iteration of the `while retries <= self.max_retries` loop
(workflow.py lines 925-976): call the API, run the validity and word-count
checks, and either accept the (stripped) content or continue with updated
`final_content_for_processing` and `last_error`.  The word-count threshold
`actual_w_count >= target_w_count * 0.9` is modelled exactly as the
rational inequality `10 * wc ≥ 9 * target` (the source compares against the
IEEE double `target * 0.9`, which can differ from the rational value only
at the exact boundary). -/
inductive IterOut where
  | accept (content : String)
  | again (fc : Option String) (le : String)
deriving DecidableEq, Repr

/-- The body of one loop iteration; `fc` is the current
`final_content_for_processing`. -/
def genIter (env : GenEnv) (target retries : Nat) (fc : Option String) : IterOut :=
  match env.api retries with
  | .ok text =>
    let content := pyStrip text
    if basicInvalid content then
      .again (some content) "Generated content potentially invalid or refused."
    else if 10 * wordCount content ≥ 9 * target then
      .accept content
    else
      .again (some content)
        ("Word count " ++ toString (wordCount content) ++
          " is less than 90% of target " ++ toString target)
  | .connExc e => .again fc ("Anthropic API conn error: " ++ e)
  | .rateLimitExc e => .again fc ("Anthropic rate limit exceeded: " ++ e)
  | .statusExc e => .again fc ("Anthropic API status error " ++ e)
  | .otherExc e => .again fc ("Unexpected error during Claude generation: " ++ e)

/-- The retry loop itself.  `fuel` is `max_retries + 1 - retries`, the
number of iterations the guard still allows; the `fuel = 0` equation
mirrors the unreachable fallthrough `return None, "Exceeded max retries"`
after the loop.  On acceptance the processed (link-rewritten) content is
returned with no error; on exhaustion the most recent content (if any) is
processed and returned together with the last error.  The second component
counts the API calls made, so that "accepted without further retries" is
observable. -/
def genLoopGo (env : GenEnv) (target max_retries : Nat) :
    Nat → Nat → Option String → Option String →
      (Option String × Option String) × Nat
  | 0, _retries, _fc, _le => ((none, some "Exceeded max retries"), 0)
  | fuel + 1, retries, fc, _le =>
    match genIter env target retries fc with
    | .accept content => ((some (env.linkProc content), none), 1)
    | .again fc2 le2 =>
      if retries + 1 ≤ max_retries then
        let r := genLoopGo env target max_retries fuel (retries + 1) fc2 (some le2)
        (r.1, r.2 + 1)
      else
        match fc2 with
        | some c => ((some (env.linkProc c), some le2), 1)
        | none => ((none, some le2), 1)

/-- `ContentWorkflowService.generate_content`: client/prompt guards, then the
retry loop.  `brief_target` is `brief.get('target_word_count', 1500)`.
Returns `((content, error), api_calls_made)`. -/
def generate_content (env : GenEnv) (brief_target : Option Nat)
    (max_retries : Nat) : (Option String × Option String) × Nat :=
  if !env.clientOk then ((none, some "Anthropic client not initialized"), 0)
  else if !env.promptOk then ((none, some "Prompt generation failed"), 0)
  else genLoopGo env (brief_target.getD 1500) max_retries (max_retries + 1) 0 none none

/-! ### Lemmas and claim theorems -/

-- Basic facts about the insertion sort used by `get_pending_tasks`.

theorem mem_insertByCreated {r x : Row} {l : List Row} :
    x ∈ insertByCreated r l ↔ x = r ∨ x ∈ l := by
  induction l with
  | nil => simp [insertByCreated]
  | cons h t ih =>
    simp only [insertByCreated]
    by_cases hc : r.created_at < h.created_at
    · rw [if_pos hc]
      exact List.mem_cons
    · rw [if_neg hc]
      simp only [List.mem_cons, ih]
      tauto

theorem mem_sortByCreated {x : Row} {l : List Row} :
    x ∈ sortByCreated l ↔ x ∈ l := by
  induction l with
  | nil => simp [sortByCreated]
  | cons h t ih =>
    simp [sortByCreated, mem_insertByCreated, ih]

theorem length_sortByCreated (l : List Row) :
    (sortByCreated l).length = l.length := by
  induction l with
  | nil => rfl
  | cons h t ih =>
    have hlen : ∀ (r : Row) (m : List Row),
        (insertByCreated r m).length = m.length + 1 := by
      intro r m
      induction m with
      | nil => rfl
      | cons a b ihm =>
        by_cases hc : r.created_at < a.created_at
        · simp [insertByCreated, hc]
        · simp [insertByCreated, hc, ihm]
    simp [sortByCreated, hlen, ih]

theorem sorted_insertByCreated {r : Row} {l : List Row}
    (h : l.Pairwise (fun a b => a.created_at ≤ b.created_at)) :
    (insertByCreated r l).Pairwise (fun a b => a.created_at ≤ b.created_at) := by
  induction l with
  | nil => simp [insertByCreated]
  | cons x xs ih =>
    rcases List.pairwise_cons.mp h with ⟨hx, hxs⟩
    by_cases hc : r.created_at < x.created_at
    · simp only [insertByCreated, hc, if_pos]
      refine List.pairwise_cons.mpr ⟨?_, h⟩
      intro b hb
      rcases List.mem_cons.mp hb with hb | hb
      · exact le_of_lt (hb ▸ hc)
      · exact le_trans (le_of_lt hc) (hx b hb)
    · simp only [insertByCreated, hc, if_neg, not_false_iff]
      refine List.pairwise_cons.mpr ⟨?_, ih hxs⟩
      intro b hb
      rcases mem_insertByCreated.mp hb with hb | hb
      · exact hb ▸ le_of_not_lt hc
      · exact hx b hb

theorem sorted_sortByCreated (l : List Row) :
    (sortByCreated l).Pairwise (fun a b => a.created_at ≤ b.created_at) := by
  induction l with
  | nil => simp [sortByCreated]
  | cons h t ih => exact sorted_insertByCreated ih

/-- Unfolding of the claim-query predicate: the `status != 'skip'` conjunct
is redundant given the first disjunction. -/
theorem claimEligible_iff (mr : Nat) (r : Row) :
    claimEligible mr r = true ↔
      (r.status = .pending ∨ (r.status = .error ∧ r.attempts < mr)) := by
  cases h : r.status <;> simp [claimEligible, h]

/-- C2: `get_pending_tasks` returns only store rows that are `pending`, or
`error` with `attempts < max_retries` — never `completed`, `processing` or
`skip` — at most `limit` of them, in `created_at`-ascending order; it
returns every eligible row whenever no more than `limit` rows are eligible,
and every returned row is no newer than any eligible row the `LIMIT`
truncation left out. -/
theorem get_pending_tasks_spec (db : List Row) (limit max_retries : Nat) :
    (∀ r ∈ get_pending_tasks db limit max_retries,
        r ∈ db ∧
        (r.status = .pending ∨ (r.status = .error ∧ r.attempts < max_retries)) ∧
        r.status ≠ .completed ∧ r.status ≠ .processing ∧ r.status ≠ .skip) ∧
    (get_pending_tasks db limit max_retries).length ≤ limit ∧
    (get_pending_tasks db limit max_retries).Pairwise
      (fun a b => a.created_at ≤ b.created_at) ∧
    ((db.filter (claimEligible max_retries)).length ≤ limit →
      ∀ r ∈ db, claimEligible max_retries r = true →
        r ∈ get_pending_tasks db limit max_retries) ∧
    (∀ r ∈ get_pending_tasks db limit max_retries,
      ∀ r2 ∈ (sortByCreated (db.filter (claimEligible max_retries))).drop limit,
        r.created_at ≤ r2.created_at) := by
  refine ⟨?_, ?_, ?_, ?_, ?_⟩
  · intro r hr
    have hmem : r ∈ sortByCreated (db.filter (claimEligible max_retries)) :=
      List.mem_of_mem_take hr
    have hmem2 : r ∈ db.filter (claimEligible max_retries) :=
      mem_sortByCreated.mp hmem
    have hdb : r ∈ db := List.mem_of_mem_filter hmem2
    have helig : claimEligible max_retries r = true := List.of_mem_filter hmem2
    have hstat := (claimEligible_iff max_retries r).mp helig
    refine ⟨hdb, hstat, ?_, ?_, ?_⟩ <;>
      rcases hstat with h | ⟨h, _⟩ <;> simp [h]
  · calc (get_pending_tasks db limit max_retries).length
        = min limit (sortByCreated (db.filter (claimEligible max_retries))).length := by
          simp [get_pending_tasks, List.length_take]
      _ ≤ limit := min_le_left _ _
  · exact (sorted_sortByCreated _).sublist (List.take_sublist _ _)
  · intro hlen r hdb helig
    have hfil : r ∈ db.filter (claimEligible max_retries) :=
      List.mem_filter.mpr ⟨hdb, helig⟩
    have hsort : r ∈ sortByCreated (db.filter (claimEligible max_retries)) :=
      mem_sortByCreated.mpr hfil
    have hlen2 : (sortByCreated (db.filter (claimEligible max_retries))).length ≤ limit := by
      rw [length_sortByCreated]; exact hlen
    unfold get_pending_tasks
    rwa [List.take_of_length_le hlen2]
  · intro r hr r2 hr2
    have hP := sorted_sortByCreated (db.filter (claimEligible max_retries))
    rw [← List.take_append_drop limit
      (sortByCreated (db.filter (claimEligible max_retries)))] at hP
    exact (List.pairwise_append.mp hP).2.2 r hr r2 hr2

/-- A fully-populated payload (all five required keys present). -/
def wPayloadFull : Payload :=
  { brief_id := some "b1"
    prompt := some "Write about widgets"
    target_word_count := some 1500
    keyword := some "widgets"
    callback_url := some "https://example.com/cb" }

/-- A pending task row carrying the full payload. -/
def wRowPending : Row :=
  { task_id := 1
    task_type := "generate_content"
    payload := wPayloadFull
    status := .pending
    attempts := 0
    last_error := none
    created_at := 10
    updated_at := 10 }

/-- A completed task row (older than `wRowPending`). -/
def wRowCompleted : Row :=
  { wRowPending with task_id := 2, status := .completed, created_at := 5, updated_at := 9 }

/-- C1: the intended contract — the second claim on an already-`processing`
task returns false, so at most one of two claim attempts succeeds — does
not hold in the implementation.  `mark_task_processing` delegates to an
`UPDATE ... WHERE task_id = %s` with no condition on the current status, so
claiming a task that is ALREADY `processing` still matches (and still
changes `updated_at`), and the second caller also observes `True`.  This
contradicts the function's own comment ("This helps prevent race conditions
if multiple workers run"): the status guard is simply missing from the
`WHERE` clause.  The theorem evaluates the embedding at the failing input:
both of two successive claims on the same task report success. -/
theorem mark_processing_double_claim_succeeds :
    (mark_task_processing [wRowPending] 1 0 100).2 = true ∧
    ((mark_task_processing [wRowPending] 1 0 100).1.head?.map Row.status) =
      some .processing ∧
    (mark_task_processing (mark_task_processing [wRowPending] 1 0 100).1 1 0 101).2
      = true := by decide

/-- Witness for C2: on a concrete two-row store the completeness clause of
`get_pending_tasks_spec` fires and selects the pending row. -/
theorem get_pending_tasks_spec_witness :
    wRowPending ∈ get_pending_tasks [wRowCompleted, wRowPending] 1 3 :=
  (get_pending_tasks_spec [wRowCompleted, wRowPending] 1 3).2.2.2.1
    (by decide) wRowPending (by decide) (by decide)

/-- C7 (amended): a task whose payload is missing required keys terminates
immediately with status `error` and no claim, no external call; when the
payload is non-empty the message names the missing keys, while an entirely
empty payload gets the generic message `"Invalid or empty payload
received."` (which names no keys). -/
theorem payload_validation_terminal (task : TaskRec) (env : WorkerEnv) :
    (task.payload.isEmptyDict = true →
      process_single_task task env =
        ⟨false, [], some (.error, none, some "Invalid or empty payload received.")⟩) ∧
    (task.payload.isEmptyDict = false → missingKeys task.payload ≠ [] →
      process_single_task task env =
        ⟨false, [], some (.error, none,
          some ("Task " ++ toString task.task_id ++ " payload missing required keys: " ++
            String.intercalate ", " (missingKeys task.payload)))⟩) := by
  constructor
  · intro h
    simp [process_single_task, h]
  · intro h1 h2
    simp [process_single_task, h1, h2]

/-- The empty payload used in the C7 counterexample. -/
def emptyPayload : Payload := ⟨none, none, none, none, none⟩

/-- A task whose payload is the empty dict. -/
def tEmpty : TaskRec := ⟨3, "generate_content", emptyPayload, 0⟩

/-- A benign environment (never consulted on validation-failure paths). -/
def envAny : WorkerEnv :=
  { markOk := true
    init := .ok
    gen := .ok (none, none)
    image := .ok none
    publish := .ok none
    callback := .ok
    cfgCallbackUrl := "" }

/-- C7 counterexample: a payload missing ALL required keys (the empty dict)
is written as `error` with the generic message, which names none of the
missing keys — the claim's "the stored error message names the missing
key(s)" fails for this input (the other conjuncts hold: no claim, no
external call). -/
theorem empty_payload_generic_message_cex :
    (process_single_task tEmpty envAny).finalWrite =
      some (.error, none, some "Invalid or empty payload received.") ∧
    (process_single_task tEmpty envAny).markCalled = false ∧
    (process_single_task tEmpty envAny).calls = [] ∧
    subSearch "Invalid or empty payload received.".data "brief_id".data = false ∧
    subSearch "Invalid or empty payload received.".data "prompt".data = false ∧
    subSearch "Invalid or empty payload received.".data "target_word_count".data = false ∧
    subSearch "Invalid or empty payload received.".data "keyword".data = false ∧
    subSearch "Invalid or empty payload received.".data "callback_url".data = false := by
  decide

/-- The payload of the C7 witness: non-empty but missing `keyword`. -/
def pNoKeyword : Payload :=
  { brief_id := some "b2"
    prompt := some "p"
    target_word_count := some 1200
    keyword := none
    callback_url := some "https://example.com/cb" }

/-- Witness for C7 (amended) at a concrete task missing `keyword`. -/
theorem payload_validation_terminal_witness :
    process_single_task ⟨4, "generate_content", pNoKeyword, 0⟩ envAny =
      ⟨false, [], some (.error, none,
        some ("Task " ++ toString (4 : Nat) ++ " payload missing required keys: " ++
          String.intercalate ", " (missingKeys pNoKeyword)))⟩ :=
  (payload_validation_terminal ⟨4, "generate_content", pNoKeyword, 0⟩ envAny).2
    (by decide) (by decide)

/-- The payloads rejected by the worker's validation block: the empty dict,
or a non-empty dict with at least one required key absent. -/
def payloadInvalid (p : Payload) : Bool :=
  p.isEmptyDict || !(missingKeys p).isEmpty

/-- On any payload the validation block rejects, the worker writes `error`
with the `attempts` argument left `NULL` (unchanged) and never calls
`mark_task_processing` nor any collaborator. -/
theorem process_invalid_payload (t : TaskRec) (env : WorkerEnv)
    (h : payloadInvalid t.payload = true) :
    (process_single_task t env).markCalled = false ∧
    (process_single_task t env).calls = [] ∧
    ∃ msg, (process_single_task t env).finalWrite = some (.error, none, some msg) := by
  by_cases he : t.payload.isEmptyDict = true
  · simp [process_single_task, he]
  · have hne : t.payload.isEmptyDict = false := by
      simpa using he
    have hmiss : missingKeys t.payload ≠ [] := by
      intro hnil
      simp [payloadInvalid, hne, hnil] at h
    simp [process_single_task, hne, hmiss]

/-- A single-row store whose row is claim-eligible yields exactly that row
from the claim query. -/
theorem get_pending_single (r : Row) (maxR : Nat)
    (helig : claimEligible maxR r = true) :
    get_pending_tasks [r] 1 maxR = [r] := by
  simp [get_pending_tasks, List.filter, helig, sortByCreated, insertByCreated]

/-- One dispatcher cycle on an eligible row with an invalid payload: the row
is rewritten to `error` with attempts, payload and creation time untouched. -/
theorem claimStep_invalid (env : WorkerEnv) (maxR nM nF : Nat) (r : Row)
    (hinv : payloadInvalid r.payload = true)
    (helig : claimEligible maxR r = true) :
    ∃ msg, claimStep env maxR nM nF r =
      { r with status := .error, last_error := some msg, updated_at := nF } := by
  obtain ⟨hmc, _hcalls, msg, hfw⟩ := process_invalid_payload r.toTask env hinv
  refine ⟨msg, ?_⟩
  unfold claimStep
  rw [get_pending_single r maxR helig]
  simp [applyTrace, hmc, hfw]

/-- C10: a task whose payload fails validation is never marked
`processing`, so its `attempts` counter never moves; since an `error` row is
re-eligible while `attempts < max_retries`, every subsequent dispatcher
cycle re-selects and re-fails it — it is retried indefinitely instead of
exhausting its retry budget. -/
theorem invalid_payload_retried_forever (env : WorkerEnv) (maxR nM nF : Nat)
    (r : Row)
    (hinv : payloadInvalid r.payload = true)
    (helig : claimEligible maxR r = true)
    (hatt : r.attempts < maxR) :
    (process_single_task r.toTask env).markCalled = false ∧
    ∀ n, 1 ≤ n →
      ((claimStep env maxR nM nF)^[n] r).status = .error ∧
      ((claimStep env maxR nM nF)^[n] r).attempts = r.attempts ∧
      claimEligible maxR ((claimStep env maxR nM nF)^[n] r) = true := by
  refine ⟨(process_invalid_payload r.toTask env hinv).1, ?_⟩
  have key : ∀ k,
      ((claimStep env maxR nM nF)^[k + 1] r).status = .error ∧
      ((claimStep env maxR nM nF)^[k + 1] r).attempts = r.attempts ∧
      ((claimStep env maxR nM nF)^[k + 1] r).payload = r.payload := by
    intro k
    induction k with
    | zero =>
      obtain ⟨msg, hstep⟩ := claimStep_invalid env maxR nM nF r hinv helig
      simp [hstep]
    | succ m ih =>
      obtain ⟨hs, ha, hp⟩ := ih
      have helig2 : claimEligible maxR ((claimStep env maxR nM nF)^[m + 1] r) = true := by
        refine (claimEligible_iff _ _).mpr (Or.inr ⟨hs, ?_⟩)
        rw [ha]; exact hatt
      obtain ⟨msg, hstep⟩ :=
        claimStep_invalid env maxR nM nF ((claimStep env maxR nM nF)^[m + 1] r)
          (by rw [hp]; exact hinv) helig2
      rw [Function.iterate_succ_apply', hstep]
      exact ⟨rfl, ha, hp⟩
  intro n hn
  obtain ⟨k, rfl⟩ : ∃ k, n = k + 1 := ⟨n - 1, (Nat.succ_pred_eq_of_pos hn).symm⟩
  obtain ⟨hs, ha, _hp⟩ := key k
  refine ⟨hs, ha, (claimEligible_iff _ _).mpr (Or.inr ⟨hs, ?_⟩)⟩
  rw [ha]; exact hatt

/-- A pending row missing `keyword`, used by the C10 witness. -/
def rNoKeyword : Row :=
  { task_id := 5
    task_type := "generate_content"
    payload := pNoKeyword
    status := .pending
    attempts := 0
    last_error := none
    created_at := 20
    updated_at := 20 }

/-- Witness for C10: the concrete `keyword`-less row is never marked
`processing` and after two full dispatcher cycles still sits at `error`
with `attempts = 0`, still eligible for the claim query. -/
theorem invalid_payload_retried_forever_witness :
    (process_single_task rNoKeyword.toTask envAny).markCalled = false ∧
    ((claimStep envAny 3 30 31)^[2] rNoKeyword).status = .error ∧
    ((claimStep envAny 3 30 31)^[2] rNoKeyword).attempts = 0 ∧
    claimEligible 3 ((claimStep envAny 3 30 31)^[2] rNoKeyword) = true := by
  have h := invalid_payload_retried_forever envAny 3 30 31 rNoKeyword
    (by decide) (by decide) (by decide)
  exact ⟨h.1, (h.2 2 (by decide)).1, (h.2 2 (by decide)).2.1, (h.2 2 (by decide)).2.2⟩

/-- The `try` block never attempts the callback POST (it only happens in the
`finally` block). -/
theorem callbackPost_not_in_runTry (task : TaskRec) (env : WorkerEnv) :
    ExtCall.callbackPost ∉ (runTry task env).calls := by
  unfold runTry
  repeat' split
  all_goals simp [catchAllOut]

/-- C3 (amended): when the effective callback URL is empty the worker does
NOT override the final status — it keeps whatever the pipeline computed
(the source comment says "Keep final_task_status as determined by
processing") and merely records `"Missing callback URL in task payload"`;
no callback POST is attempted. -/
theorem missing_callback_url_no_override (task : TaskRec) (env : WorkerEnv)
    (hne : task.payload.isEmptyDict = false)
    (hmk : missingKeys task.payload = [])
    (hok : env.markOk = true)
    (hinit : env.init = .ok)
    (hurl : effectiveCallbackUrl task.payload env.cfgCallbackUrl = "") :
    (process_single_task task env).finalWrite =
      some ((runTry task env).finalStatus, none,
        some "Missing callback URL in task payload") ∧
    ExtCall.callbackPost ∉ (process_single_task task env).calls := by
  constructor
  · simp [process_single_task, hne, hmk, hok, hinit, runFinally, hurl]
  · simp [process_single_task, hne, hmk, hok, hinit, runFinally, hurl]
    exact callbackPost_not_in_runTry task env

/-- A payload whose `callback_url` key is present but empty (falsy in
Python), so validation passes yet the notifier has no URL. -/
def pEmptyUrl : Payload :=
  { brief_id := some "b3"
    prompt := some "p"
    target_word_count := some 800
    keyword := some "kw"
    callback_url := some "" }

/-- Task used in the C3 counterexample. -/
def tNoUrl : TaskRec := ⟨6, "generate_content", pEmptyUrl, 0⟩

/-- A successful publish result (as produced for the worker's briefs, where
`category_update` is `not_applicable`). -/
def bpSuccess : PostResult :=
  { blogStatus := some "success"
    blogId := some 42
    blogUrl := some "https://site/x"
    blogError := none
    catStatus := some "not_applicable"
    catError := none }

/-- Environment in which every pipeline stage succeeds. -/
def envSuccessNoUrl : WorkerEnv :=
  { markOk := true
    init := .ok
    gen := .ok (some "ARTICLE TEXT", none)
    image := .ok (some 7)
    publish := .ok (some bpSuccess)
    callback := .ok
    cfgCallbackUrl := "" }

/-- C3 counterexample: a claimed task whose payload supplies no callback URL
and whose pipeline fully succeeds is written back as `completed`, not
`error` — the missing URL is not treated as a notification failure. -/
theorem missing_callback_url_completed_cex :
    (process_single_task tNoUrl envSuccessNoUrl).finalWrite =
      some (.completed, none, some "Missing callback URL in task payload") ∧
    ExtCall.callbackPost ∉ (process_single_task tNoUrl envSuccessNoUrl).calls := by
  decide

/-- Witness for C3 (amended) at the concrete no-URL success scenario. -/
theorem missing_callback_url_no_override_witness :
    (process_single_task tNoUrl envSuccessNoUrl).finalWrite =
      some ((runTry tNoUrl envSuccessNoUrl).finalStatus, none,
        some "Missing callback URL in task payload") ∧
    ExtCall.callbackPost ∉ (process_single_task tNoUrl envSuccessNoUrl).calls :=
  missing_callback_url_no_override tNoUrl envSuccessNoUrl (by decide) (by decide)
    rfl rfl (by decide)

/-- The `try` block on the all-stages-succeed path: callback status
`success`, final status `completed`, and an error message only when the
category update failed. -/
theorem runTry_success (task : TaskRec) (env : WorkerEnv) (c : String)
    (ge : Option String) (img : Option Nat) (bp : PostResult)
    (htype : task.task_type = "generate_content")
    (hgen : env.gen = .ok (some c, ge))
    (hc : c ≠ "")
    (himg : env.image = .ok img)
    (hpub : env.publish = .ok (some bp))
    (hbs : bp.blogStatus = some "success") :
    runTry task env =
      { cbStatus := "success"
        cbErr := if bp.catStatus == some "error"
          then some ("Blog post created, but category update failed: " ++ pyStr bp.catError)
          else none
        finalStatus := .completed
        calls := [.genText, .genImage, .publishPost] } := by
  simp [runTry, htype, hgen, hc, himg, hpub, branchOnPostResult, hbs]

/-- C9 (amended): when the pipeline fully succeeds, the publish step reports
no category-update failure, and the callback is delivered over a present
URL, the final `completed` write clears `last_error` to `NULL`. -/
theorem clean_success_clears_last_error (task : TaskRec) (env : WorkerEnv)
    (c : String) (ge : Option String) (img : Option Nat) (bp : PostResult)
    (hne : task.payload.isEmptyDict = false)
    (hmk : missingKeys task.payload = [])
    (hok : env.markOk = true)
    (hinit : env.init = .ok)
    (htype : task.task_type = "generate_content")
    (hgen : env.gen = .ok (some c, ge))
    (hc : c ≠ "")
    (himg : env.image = .ok img)
    (hpub : env.publish = .ok (some bp))
    (hbs : bp.blogStatus = some "success")
    (hcat : bp.catStatus ≠ some "error")
    (hurl : effectiveCallbackUrl task.payload env.cfgCallbackUrl ≠ "")
    (hcb : env.callback = .ok) :
    (process_single_task task env).finalWrite = some (.completed, none, none) := by
  have ht := runTry_success task env c ge img bp htype hgen hc himg hpub hbs
  have hcat2 : (bp.catStatus == some "error") = false := by simpa using hcat
  simp [process_single_task, hne, hmk, hok, hinit, runFinally, ht, hurl, hcb, hcat2]

/-- Task with the full payload (URL present), used by several witnesses. -/
def tValid : TaskRec := ⟨9, "generate_content", wPayloadFull, 0⟩

/-- Witness for C9 (amended) at the concrete all-success scenario. -/
theorem clean_success_clears_last_error_witness :
    (process_single_task tValid envSuccessNoUrl).finalWrite =
      some (.completed, none, none) :=
  clean_success_clears_last_error tValid envSuccessNoUrl "ARTICLE TEXT" none
    (some 7) bpSuccess (by decide) (by decide) rfl rfl rfl rfl (by decide)
    rfl rfl rfl (by decide) (by decide) rfl

/-- Task used in the C9 counterexample (URL-less payload, distinct id). -/
def tNoUrl2 : TaskRec := ⟨10, "generate_content", pEmptyUrl, 0⟩

/-- C9 counterexample: an execution that ends `completed` with a NON-null
`last_error` ("Missing callback URL in task payload") — `last_error` is not
cleared on every success, contradicting "cleared on success, set on any
failure". -/
theorem completed_with_nonnull_error_cex :
    ((process_single_task tNoUrl2 envSuccessNoUrl).finalWrite.map
        (fun w => w.1)) = some Status.completed ∧
    ((process_single_task tNoUrl2 envSuccessNoUrl).finalWrite.map
        (fun w => w.2.2)) = some (some "Missing callback URL in task payload") := by
  decide

/-- C5: when the pipeline succeeded but the callback POST raises a
`RequestException`, the final status is overridden to `error` and the stored
message says processing status was `success` but the callback failed. -/
theorem callback_failure_overrides_success (task : TaskRec) (env : WorkerEnv)
    (c : String) (ge : Option String) (img : Option Nat) (bp : PostResult)
    (e : String)
    (hne : task.payload.isEmptyDict = false)
    (hmk : missingKeys task.payload = [])
    (hok : env.markOk = true)
    (hinit : env.init = .ok)
    (htype : task.task_type = "generate_content")
    (hgen : env.gen = .ok (some c, ge))
    (hc : c ≠ "")
    (himg : env.image = .ok img)
    (hpub : env.publish = .ok (some bp))
    (hbs : bp.blogStatus = some "success")
    (hurl : effectiveCallbackUrl task.payload env.cfgCallbackUrl ≠ "")
    (hcb : env.callback = .requestExc e) :
    (process_single_task task env).finalWrite =
      some (.error, none,
        some ("Processing status was 'success', but callback failed: " ++ e)) := by
  have ht := runTry_success task env c ge img bp htype hgen hc himg hpub hbs
  simp [process_single_task, hne, hmk, hok, hinit, runFinally, ht, hurl, hcb]

/-- Environment where everything succeeds except the callback POST. -/
def envCallbackFail : WorkerEnv :=
  { envSuccessNoUrl with callback := .requestExc "ReadTimeout" }

/-- Witness for C5 at a concrete success-then-callback-timeout scenario. -/
theorem callback_failure_overrides_success_witness :
    (process_single_task tValid envCallbackFail).finalWrite =
      some (.error, none,
        some ("Processing status was 'success', but callback failed: ReadTimeout")) :=
  callback_failure_overrides_success tValid envCallbackFail "ARTICLE TEXT" none
    (some 7) bpSuccess "ReadTimeout" (by decide) (by decide) rfl rfl rfl rfl
    (by decide) rfl rfl rfl (by decide) rfl

/-- Environment where text generation produces no text at all (complete
generation failure), every later collaborator nominally available. -/
def envGenFailed : WorkerEnv :=
  { markOk := true
    init := .ok
    gen := .ok (none, some "Claude API down")
    image := .ok none
    publish := .ok none
    callback := .ok
    cfgCallbackUrl := "" }

/-- Task used in the C4 demonstration. -/
def tC4 : TaskRec := ⟨7, "generate_content", wPayloadFull, 0⟩

/-- C4: when `generate_content` returns no text, the pipeline does abort
(status `error`, no image/publish calls), but the terminal error message is
NOT the propagated generation failure: line 233 (`if post_result ...`)
reads the local `post_result` that is only assigned inside the
`if generated_content:` block, so an `UnboundLocalError` reaches the
catch-all handler and the generic "Unexpected error processing task"
message is stored instead of `"Content generation failed: ..."` (the else
branch at lines 258-262 that would record it is unreachable in this case). -/
theorem gen_failure_unbound_post_result :
    (process_single_task tC4 envGenFailed).calls = [.genText, .callbackPost] ∧
    (process_single_task tC4 envGenFailed).finalWrite =
      some (.error, none,
        some ("Unexpected error processing task 7: " ++ postResultUnboundMsg)) ∧
    (process_single_task tC4 envGenFailed).finalWrite ≠
      some (.error, none, some "Content generation failed: Claude API down") := by
  decide

/-- The aggregate branch after publish always yields a terminal status. -/
theorem branchOnPostResult_status (ge : Option String) (pr : Option PostResult) :
    (branchOnPostResult ge pr).2.2 = .completed ∨
      (branchOnPostResult ge pr).2.2 = .error := by
  unfold branchOnPostResult
  rcases pr with _ | bp
  · right; rfl
  · by_cases h1 : bp.blogStatus == some "success"
    · left; simp [h1]
    · by_cases h2 : bp.blogStatus == some "error" <;> simp [h1, h2]

/-- The `try` block always ends with `final_task_status` equal to
`completed` or `error`. -/
theorem runTry_finalStatus (task : TaskRec) (env : WorkerEnv) :
    (runTry task env).finalStatus = .completed ∨
      (runTry task env).finalStatus = .error := by
  unfold runTry
  repeat' split
  all_goals first
    | exact branchOnPostResult_status _ _
    | (right; rfl)

/-- C8: once a task passed validation and was successfully marked
`processing`, every execution path — service-init failure, any stage
raising, callback failure or success — ends in an unconditional
`update_task_status` write of `completed` or `error` with attempts left
unchanged, so applying the execution's writes to the row never leaves it in
`processing`. -/
theorem final_status_write_unconditional (r : Row) (env : WorkerEnv)
    (hne : r.payload.isEmptyDict = false)
    (hmk : missingKeys r.payload = [])
    (hok : env.markOk = true) :
    (∃ s e, (process_single_task r.toTask env).finalWrite = some (s, none, e) ∧
      (s = .completed ∨ s = .error)) ∧
    ∀ nM nF,
      (applyTrace r (process_single_task r.toTask env) nM nF).status ≠ .processing := by
  have hfw : ∃ s e, (process_single_task r.toTask env).finalWrite = some (s, none, e) ∧
      (s = .completed ∨ s = .error) := by
    cases hinit : env.init with
    | valueError e =>
      exact ⟨.error, some e,
        by simp [process_single_task, Row.toTask, hne, hmk, hok, hinit], Or.inr rfl⟩
    | otherExc e =>
      refine ⟨.error, some ("Unexpected error initializing services for task " ++
        toString r.task_id ++ ": " ++ e), ?_, Or.inr rfl⟩
      simp [process_single_task, Row.toTask, hne, hmk, hok, hinit]
    | ok =>
      have hred : process_single_task r.toTask env =
          runFinally r.toTask env (runTry r.toTask env) := by
        simp [process_single_task, Row.toTask, hne, hmk, hok, hinit]
      rw [hred]
      by_cases hurl : effectiveCallbackUrl r.toTask.payload env.cfgCallbackUrl = ""
      · refine ⟨(runTry r.toTask env).finalStatus,
          some "Missing callback URL in task payload", ?_, runTry_finalStatus _ _⟩
        simp [runFinally, hurl]
      · cases hcb : env.callback with
        | ok =>
          refine ⟨(runTry r.toTask env).finalStatus, (runTry r.toTask env).cbErr, ?_,
            runTry_finalStatus _ _⟩
          simp [runFinally, hurl, hcb]
        | requestExc e =>
          refine ⟨.error, some ("Processing status was '" ++
            (runTry r.toTask env).cbStatus ++ "', but callback failed: " ++ e), ?_,
            Or.inr rfl⟩
          simp [runFinally, hurl, hcb]
        | credsMissing =>
          refine ⟨.error, some ("Callback failed for task " ++
            toString r.toTask.task_id ++ ": Missing WP API credentials for callback."),
            ?_, Or.inr rfl⟩
          simp [runFinally, hurl, hcb]
        | otherExc e =>
          refine ⟨.error, some ("Callback error: " ++ e), ?_, Or.inr rfl⟩
          simp [runFinally, hurl, hcb]
  refine ⟨hfw, ?_⟩
  obtain ⟨s, e, hw, hs⟩ := hfw
  intro nM nF
  simp only [applyTrace, hw]
  rcases hs with h | h <;> simp [h]

/-- Environment where the publish stage raises an exception, used by the C8
witness to exercise the "stage raised" path. -/
def envPublishRaises : WorkerEnv :=
  { markOk := true
    init := .ok
    gen := .ok (some "TEXT", none)
    image := .ok none
    publish := .error "WP connection reset"
    callback := .ok
    cfgCallbackUrl := "" }

/-- A claim-eligible row with the full payload. -/
def rValid : Row :=
  { task_id := 8
    task_type := "generate_content"
    payload := wPayloadFull
    status := .pending
    attempts := 0
    last_error := none
    created_at := 12
    updated_at := 12 }

/-- Witness for C8 at a concrete execution whose publish stage raised. -/
theorem final_status_write_unconditional_witness :
    (∃ s e, (process_single_task rValid.toTask envPublishRaises).finalWrite =
        some (s, none, e) ∧ (s = .completed ∨ s = .error)) ∧
    ∀ nM nF,
      (applyTrace rValid (process_single_task rValid.toTask envPublishRaises)
        nM nF).status ≠ .processing :=
  final_status_write_unconditional rValid envPublishRaises (by decide) (by decide) rfl

/-- Every iteration of the retry loop makes at least one API call. -/
theorem genLoopGo_calls_pos (env : GenEnv) (target maxR : Nat) :
    ∀ fuel retries fc le, 1 ≤ fuel →
      1 ≤ (genLoopGo env target maxR fuel retries fc le).2 := by
  intro fuel retries fc le h
  cases fuel with
  | zero => omega
  | succ n =>
    simp only [genLoopGo]
    cases hgi : genIter env target retries fc with
    | accept c => simp
    | again fc2 le2 =>
      by_cases hg : retries + 1 ≤ maxR
      · simp [hg]
      · cases fc2 <;> simp [hg]

/-- A continuing iteration either kept the previous
`final_content_for_processing` (the API call raised) or replaced it with
the text the API returned. -/
theorem genIter_again_cases (env : GenEnv) (target retries : Nat)
    (fc fc2 : Option String) (le2 : String)
    (h : genIter env target retries fc = .again fc2 le2) :
    (fc2 = fc ∧ ∀ t, env.api retries ≠ .ok t) ∨
    (∃ text, env.api retries = .ok text ∧ fc2 = some (pyStrip text)) := by
  cases ha : env.api retries with
  | ok text =>
    right
    refine ⟨text, rfl, ?_⟩
    simp only [genIter, ha] at h
    split at h
    · exact (IterOut.again.injEq _ _ _ _).mp h |>.1.symm
    · split at h
      · cases h
      · exact (IterOut.again.injEq _ _ _ _).mp h |>.1.symm
  | connExc e =>
    left
    simp only [genIter, ha] at h
    exact ⟨((IterOut.again.injEq _ _ _ _).mp h).1.symm, by simp [ha]⟩
  | rateLimitExc e =>
    left
    simp only [genIter, ha] at h
    exact ⟨((IterOut.again.injEq _ _ _ _).mp h).1.symm, by simp [ha]⟩
  | statusExc e =>
    left
    simp only [genIter, ha] at h
    exact ⟨((IterOut.again.injEq _ _ _ _).mp h).1.symm, by simp [ha]⟩
  | otherExc e =>
    left
    simp only [genIter, ha] at h
    exact ⟨((IterOut.again.injEq _ _ _ _).mp h).1.symm, by simp [ha]⟩

/-- If the loop returns no content at all, then no API call in the attempt
window ever returned text. -/
theorem genLoopGo_none (env : GenEnv) (target maxR : Nat) :
    ∀ fuel retries fc le,
      retries + fuel = maxR + 1 → retries ≤ maxR →
      (genLoopGo env target maxR fuel retries fc le).1.1 = none →
      fc = none ∧ ∀ j, retries ≤ j → j ≤ maxR → ∀ t, env.api j ≠ .ok t := by
  intro fuel
  induction fuel with
  | zero => intro retries fc le hinv hr _; omega
  | succ n ih =>
    intro retries fc le hinv hr hnone
    simp only [genLoopGo] at hnone
    cases hgi : genIter env target retries fc with
    | accept c => simp [hgi] at hnone
    | again fc2 le2 =>
      simp only [hgi] at hnone
      by_cases hg : retries + 1 ≤ maxR
      · simp only [if_pos hg] at hnone
        obtain ⟨hfc2, hall⟩ :=
          ih (retries + 1) fc2 (some le2) (by omega) hg (by simpa using hnone)
        rcases genIter_again_cases env target retries fc fc2 le2 hgi with
          ⟨hfcc, hnot⟩ | ⟨t, _hok, hsome⟩
        · refine ⟨by rw [← hfcc]; exact hfc2, ?_⟩
          intro j hj1 hj2 t
          rcases Nat.eq_or_lt_of_le hj1 with rfl | hj
          · exact hnot t
          · exact hall j (by omega) hj2 t
        · rw [hsome] at hfc2; cases hfc2
      · simp only [if_neg hg] at hnone
        cases hfc2 : fc2 with
        | some c => simp [hfc2] at hnone
        | none =>
          rcases genIter_again_cases env target retries fc fc2 le2 hgi with
            ⟨hfcc, hnot⟩ | ⟨t, _hok, hsome⟩
          · refine ⟨by rw [← hfcc]; exact hfc2, ?_⟩
            intro j hj1 hj2 t
            have hje : j = retries := by omega
            subst hje; exact hnot t
          · rw [hfc2] at hsome; cases hsome

/-- An outcome with no error marker always carries content: only the
threshold-passing acceptance path clears `last_error`. -/
theorem genLoopGo_no_marker (env : GenEnv) (target maxR : Nat) :
    ∀ fuel retries fc le,
      (genLoopGo env target maxR fuel retries fc le).1.2 = none →
      ∃ c, (genLoopGo env target maxR fuel retries fc le).1.1 = some c := by
  intro fuel
  induction fuel with
  | zero => intro retries fc le h; simp [genLoopGo] at h
  | succ n ih =>
    intro retries fc le h
    simp only [genLoopGo] at h ⊢
    cases hgi : genIter env target retries fc with
    | accept c => simp [hgi]
    | again fc2 le2 =>
      simp only [hgi] at h ⊢
      by_cases hg : retries + 1 ≤ maxR
      · simp only [if_pos hg] at h ⊢
        exact ih (retries + 1) fc2 (some le2) (by simpa using h)
      · simp only [if_neg hg] at h ⊢
        cases hfc2 : fc2 with
        | some c => simp [hfc2]
        | none => simp [hfc2] at h

/-- If the first iteration does not accept, the run is not
"accepted without further retries": either a second API call happens, or
(non-positive retry budget) the result carries an error marker. -/
theorem genLoopGo_again_first (env : GenEnv) (target maxR : Nat)
    (c : String) (le2 : String)
    (hagain : genIter env target 0 none = .again (some c) le2) :
    ¬((genLoopGo env target maxR (maxR + 1) 0 none none).2 = 1 ∧
      (genLoopGo env target maxR (maxR + 1) 0 none none).1.2 = none) := by
  rintro ⟨hcalls, hmark⟩
  simp only [genLoopGo, hagain] at hcalls hmark
  by_cases hg : 0 + 1 ≤ maxR
  · rw [if_pos hg] at hcalls
    have hpos := genLoopGo_calls_pos env target maxR maxR 1 (some c) (some le2)
      (by omega)
    simp at hcalls
    omega
  · rw [if_neg hg] at hmark
    simp at hmark

/-- C6 (amended): with the client and prompt available, (1) the stage
accepts the first attempt's output without any further API call exactly
when that output passes the basic validity check AND its word count is at
least 90% of the target; (2) it returns no text at all only when no attempt
in the retry window ever returned text; (3) an outcome without an error
marker always carries accepted text. -/
theorem generate_content_retry_policy (env : GenEnv) (briefT : Option Nat)
    (maxR : Nat) (hcl : env.clientOk = true) (hpr : env.promptOk = true) :
    (∀ text, env.api 0 = .ok text →
      (((generate_content env briefT maxR).2 = 1 ∧
        (generate_content env briefT maxR).1.2 = none) ↔
       (basicInvalid (pyStrip text) = false ∧
        10 * wordCount (pyStrip text) ≥ 9 * briefT.getD 1500))) ∧
    ((generate_content env briefT maxR).1.1 = none →
      ∀ j, j ≤ maxR → ∀ t, env.api j ≠ .ok t) ∧
    ((generate_content env briefT maxR).1.2 = none →
      ∃ c, (generate_content env briefT maxR).1.1 = some c) := by
  have hgen : generate_content env briefT maxR =
      genLoopGo env (briefT.getD 1500) maxR (maxR + 1) 0 none none := by
    simp [generate_content, hcl, hpr]
  refine ⟨?_, ?_, ?_⟩
  · intro text hok
    rw [hgen]
    constructor
    · rintro ⟨hcalls, hmark⟩
      by_cases hval : basicInvalid (pyStrip text) = true
      · exfalso
        have hagain : genIter env (briefT.getD 1500) 0 none =
            .again (some (pyStrip text))
              "Generated content potentially invalid or refused." := by
          simp [genIter, hok, hval]
        exact genLoopGo_again_first env (briefT.getD 1500) maxR (pyStrip text) _
          hagain ⟨hcalls, hmark⟩
      · have hval2 : basicInvalid (pyStrip text) = false := by simpa using hval
        by_cases hthr : 10 * wordCount (pyStrip text) ≥ 9 * briefT.getD 1500
        · exact ⟨hval2, hthr⟩
        · exfalso
          have hagain : genIter env (briefT.getD 1500) 0 none =
              .again (some (pyStrip text))
                ("Word count " ++ toString (wordCount (pyStrip text)) ++
                  " is less than 90% of target " ++
                  toString (briefT.getD 1500)) := by
            simp [genIter, hok, hval2, hthr]
          exact genLoopGo_again_first env (briefT.getD 1500) maxR (pyStrip text) _
            hagain ⟨hcalls, hmark⟩
    · rintro ⟨hval, hthr⟩
      have hacc : genIter env (briefT.getD 1500) 0 none = .accept (pyStrip text) := by
        simp [genIter, hok, hval, hthr]
      simp [genLoopGo, hacc]
  · intro hnone j hj t
    rw [hgen] at hnone
    exact (genLoopGo_none env (briefT.getD 1500) maxR (maxR + 1) 0 none none
      (by omega) (by omega) hnone).2 j (Nat.zero_le j) hj t
  · intro hmark
    rw [hgen] at hmark
    rw [hgen]
    exact genLoopGo_no_marker env (briefT.getD 1500) maxR (maxR + 1) 0 none none hmark

/-- Environment of the C6 counterexample: the first API call returns a
9-word text (meeting the 90% threshold for a 10-word target), later calls
fail with a connection error. -/
def envGenCex : GenEnv :=
  { clientOk := true
    promptOk := true
    api := fun i => if i = 0 then .ok "a a a a a a a a a" else .connExc "boom"
    linkProc := fun s => s }

/-- C6 counterexample: against a 10-word target the first attempt's 9-word
output satisfies word count ≥ 0.9 · target, yet the stage does NOT accept
it (the basic validity check `actual_w_count < 100` raises `ValueError`):
all three attempts are consumed and the degraded text comes back with an
error marker, so "accepts exactly when word count ≥ 0.9 · T" fails. -/
theorem word_threshold_not_sufficient_cex :
    10 * wordCount (pyStrip "a a a a a a a a a") ≥
      9 * ((some 10 : Option Nat).getD 1500) ∧
    (generate_content envGenCex (some 10) 2).2 = 3 ∧
    (generate_content envGenCex (some 10) 2).1.2 =
      some "Anthropic API conn error: boom" ∧
    (generate_content envGenCex (some 10) 2).1.1 = some "a a a a a a a a a" := by
  decide

/-- Environment for the C6 witness: every API call raises. -/
def envGenAllFail : GenEnv :=
  { clientOk := true
    promptOk := true
    api := fun _ => .connExc "down"
    linkProc := fun s => s }

/-- Witness for C6 (amended): the run with every call failing returns no
text, so clause (2) applies and shows attempt 0 returned no text — here
instantiated at the concrete candidate "hello". -/
theorem generate_content_retry_policy_witness :
    envGenAllFail.api 0 ≠ ApiAttempt.ok "hello" :=
  (generate_content_retry_policy envGenAllFail (some 1500) 1 rfl rfl).2.1
    (by decide) 0 (by decide) "hello"

